import Mathlib

/-!
Verification of the face-tracking engagement state machine of the
liverpool-street-backend repository (the `FaceMeshView` component).

The embedding translates, from the source:
  * `evaluateAlignment` — the pure alignment evaluator over a landmark set,
    including JavaScript `Math.min`/`Math.max` semantics on NaN/±Infinity
    (modelled by the `JsNumber` type);
  * the per-frame state-machine portion of `renderLoop` (the detection
    branches that update the engagement counters and phase), as the function
    `renderLoopStep` over an explicit `EngagementState`;
  * `revertToGuide`, `stopCamera` (its state-reset effect) and the reset
    performed by `startCamera`'s success path;
  * the geometry of `captureScreenshot` (canvas sizing and the
    `scale(-1,1)` + `drawImage` mirroring).
Readiness guards of the render loop (missing video/canvas, readyState) are
frame skips that touch no state and are outside the modelled step.
-/

/-- A JavaScript number as used by the landmark coordinates: either a finite
value (modelled as a rational) or one of the non-finite values NaN, +Infinity,
-Infinity. -/
inductive JsNumber where
  | finite (q : ℚ)
  | nan
  | inf
  | negInf
deriving DecidableEq, Repr

/-- JavaScript `Math.min`: NaN if either argument is NaN, otherwise the
numeric minimum with -Infinity minimal and +Infinity maximal. -/
def jsMin : JsNumber → JsNumber → JsNumber
  | .nan, _ => .nan
  | _, .nan => .nan
  | .negInf, _ => .negInf
  | _, .negInf => .negInf
  | .inf, b => b
  | a, .inf => a
  | .finite p, .finite q => .finite (min p q)

/-- JavaScript `Math.max`: NaN if either argument is NaN, otherwise the
numeric maximum with -Infinity minimal and +Infinity maximal. -/
def jsMax : JsNumber → JsNumber → JsNumber
  | .nan, _ => .nan
  | _, .nan => .nan
  | .inf, _ => .inf
  | _, .inf => .inf
  | .negInf, b => b
  | a, .negInf => a
  | .finite p, .finite q => .finite (max p q)

/-- A landmark point; each coordinate is `some` JavaScript number when the
property has type "number", `none` otherwise (missing or non-number, the
case the source's `typeof` guard skips). -/
structure LMPoint where
  x : Option JsNumber
  y : Option JsNumber
deriving DecidableEq, Repr

/-- The `ALIGNMENT_TARGET` configuration constant of the source. -/
structure AlignmentTargetCfg where
  minWidth : ℚ
  minHeight : ℚ
  nearWidth : ℚ
  nearHeight : ℚ
  centerToleranceX : ℚ
  centerToleranceY : ℚ
  targetCenterY : ℚ
deriving DecidableEq, Repr

def ALIGNMENT_TARGET : AlignmentTargetCfg :=
  { minWidth := 34/100
    minHeight := 44/100
    nearWidth := 3/10
    nearHeight := 36/100
    centerToleranceX := 12/100
    centerToleranceY := 12/100
    targetCenterY := 1/2 }

/-- The verdict returned by `evaluateAlignment`. -/
structure AlignmentVerdict where
  isAligned : Bool
  isClose : Bool
deriving DecidableEq, Repr

/-- The four running extrema of the source's bounding-box loop. -/
structure Bounds where
  minX : JsNumber
  maxX : JsNumber
  minY : JsNumber
  maxY : JsNumber
deriving DecidableEq, Repr

/-- One iteration of the source's `for (const point of landmarks)` loop:
skip the point unless both coordinates are numbers, otherwise fold it into
the extrema with `Math.min`/`Math.max`. -/
def updateBounds (b : Bounds) (p : LMPoint) : Bounds :=
  match p.x, p.y with
  | some px, some py =>
      ⟨jsMin b.minX px, jsMax b.maxX px, jsMin b.minY py, jsMax b.maxY py⟩
  | _, _ => b

/-- The initial extrema (`POSITIVE_INFINITY` / `NEGATIVE_INFINITY`). -/
def initialBounds : Bounds := ⟨.inf, .negInf, .inf, .negInf⟩

/-- `evaluateAlignment` from the source: bounding box of the landmark set,
`{false,false}` when the set is empty or the resulting extrema are not all
finite, otherwise size and centering checks against `ALIGNMENT_TARGET`. -/
def evaluateAlignment (landmarks : List LMPoint) : AlignmentVerdict :=
  if landmarks.isEmpty then ⟨false, false⟩
  else
    let b := landmarks.foldl updateBounds initialBounds
    match b.minX, b.maxX, b.minY, b.maxY with
    | .finite minX, .finite maxX, .finite minY, .finite maxY =>
        let width := max 0 (maxX - minX)
        let height := max 0 (maxY - minY)
        let centerX := (minX + maxX) * (1/2)
        let centerY := (minY + maxY) * (1/2)
        let isClose :=
          decide (width ≥ ALIGNMENT_TARGET.nearWidth) &&
          decide (height ≥ ALIGNMENT_TARGET.nearHeight)
        let isAligned :=
          decide (width ≥ ALIGNMENT_TARGET.minWidth) &&
          decide (height ≥ ALIGNMENT_TARGET.minHeight) &&
          decide (|centerX - 1/2| ≤ ALIGNMENT_TARGET.centerToleranceX) &&
          decide (|centerY - ALIGNMENT_TARGET.targetCenterY| ≤ ALIGNMENT_TARGET.centerToleranceY)
        ⟨isAligned, isClose⟩
    | _, _, _, _ => ⟨false, false⟩

/-- A finite (x,y) pair of a landmark point, when both coordinates are
finite numbers. -/
def finitePair (p : LMPoint) : Option (ℚ × ℚ) :=
  match p.x, p.y with
  | some (.finite a), some (.finite b) => some (a, b)
  | _, _ => none

/-- Modelled from the spec wording for the alignment evaluator: the
bounding box is taken over all finite (x,y) pairs of the set; if no finite
points exist the result is `{false,false}`; otherwise width = maxX−minX,
height = maxY−minY, center = midpoint, and the size/centering formulas of
the spec are applied. Used to compare the source's `evaluateAlignment`
against the claimed behaviour. -/
def evaluateAlignmentSpec (landmarks : List LMPoint) : AlignmentVerdict :=
  match landmarks.filterMap finitePair with
  | [] => ⟨false, false⟩
  | q :: qs =>
      let minX := qs.foldl (fun a p => min a p.1) q.1
      let maxX := qs.foldl (fun a p => max a p.1) q.1
      let minY := qs.foldl (fun a p => min a p.2) q.2
      let maxY := qs.foldl (fun a p => max a p.2) q.2
      let width := maxX - minX
      let height := maxY - minY
      let centerX := (minX + maxX) * (1/2)
      let centerY := (minY + maxY) * (1/2)
      let isClose :=
        decide (width ≥ ALIGNMENT_TARGET.nearWidth) &&
        decide (height ≥ ALIGNMENT_TARGET.nearHeight)
      let isAligned :=
        decide (width ≥ ALIGNMENT_TARGET.minWidth) &&
        decide (height ≥ ALIGNMENT_TARGET.minHeight) &&
        decide (|centerX - 1/2| ≤ ALIGNMENT_TARGET.centerToleranceX) &&
        decide (|centerY - ALIGNMENT_TARGET.targetCenterY| ≤ ALIGNMENT_TARGET.centerToleranceY)
      ⟨isAligned, isClose⟩

/-! State machine constants of the source. -/

def DISENGAGE_FRAME_LIMIT : Nat := 12
def CLOSE_UNLOCK_FRAMES : Nat := 6
def MAX_MISS_COUNT : Nat := 45
def AUTO_CAPTURE_FRAMES : Nat := 60

/-- One detected face: a list of landmark points. -/
def Face : Type := List LMPoint

instance : DecidableEq Face := by
  unfold Face
  exact inferInstance

/-- The outcome of one `detectForVideo` call: a result carrying a (possibly
empty) `faceLandmarks` list, no usable result at all, or a thrown error. -/
inductive FrameResult where
  | detection (faces : List Face)
  | noDetection
  | throws
deriving DecidableEq

/-- The mutable refs of `FaceMeshView` that carry the engagement state
machine, as one record. `hasAnimationStarted` is the phase flag: `true` is
the `Locked` phase, `false` is `Guide`. -/
structure EngagementState where
  isCameraOn : Bool
  hasStream : Bool
  hasAnimationStarted : Bool
  guideHighlighted : Bool
  hasAutoCaptured : Bool
  closeFrameCount : Nat
  disengageCount : Nat
  missCount : Nat
  autoCaptureFrameCount : Nat
  animationStart : Option ℚ
  lastLandmarks : Option (List Face)
deriving DecidableEq

/-- `revertToGuide` from the source: a no-op unless the animation has
started; otherwise it returns the phase to `Guide`, clears the animation
start time, zeroes `disengageCount`, `closeFrameCount` and `missCount`,
and clears the retained landmarks and the guide highlight. It does not
touch `hasAutoCaptured` or `autoCaptureFrameCount`. -/
def revertToGuide (s : EngagementState) : EngagementState :=
  if s.hasAnimationStarted then
    { s with
      hasAnimationStarted := false
      animationStart := none
      disengageCount := 0
      closeFrameCount := 0
      lastLandmarks := none
      missCount := 0
      guideHighlighted := false }
  else s

/-- The branch of `renderLoop` for a usable detection result with a
nonempty `faceLandmarks` list whose first face is `face`. Returns the new
state and whether the auto-capture fired on this frame. -/
def detectionBranch (s : EngagementState) (now : ℚ) (faces : List Face)
    (face : Face) : EngagementState × Bool :=
  let s := { s with lastLandmarks := some faces, missCount := 0 }
  let v := evaluateAlignment face
  if s.hasAnimationStarted then
    if v.isClose then
      let s := { s with disengageCount := 0, closeFrameCount := 0 }
      if s.hasAutoCaptured then (s, false)
      else
        let s := { s with autoCaptureFrameCount := s.autoCaptureFrameCount + 1 }
        if s.autoCaptureFrameCount ≥ AUTO_CAPTURE_FRAMES then
          ({ s with hasAutoCaptured := true }, true)
        else (s, false)
    else
      let s := { s with
        disengageCount := s.disengageCount + 1
        autoCaptureFrameCount := 0 }
      if s.disengageCount > DISENGAGE_FRAME_LIMIT then (revertToGuide s, false)
      else (s, false)
  else
    let s := { s with disengageCount := 0 }
    let s := if s.guideHighlighted ≠ v.isClose then { s with guideHighlighted := v.isClose } else s
    let s :=
      if v.isClose then { s with closeFrameCount := s.closeFrameCount + 1 }
      else { s with closeFrameCount := 0 }
    if v.isAligned || s.closeFrameCount ≥ CLOSE_UNLOCK_FRAMES then
      ({ s with
          hasAnimationStarted := true
          guideHighlighted := false
          animationStart := some now
          disengageCount := 0
          closeFrameCount := 0 }, false)
    else (s, false)


/-- The branch of `renderLoop` taken when no usable face list arrived this
frame (`results` missing or `faceLandmarks` empty): count a miss while
landmarks are retained (disengaging when `Locked`), drop the retained
landmarks after `MAX_MISS_COUNT` misses, and otherwise clear a stale guide
highlight (which also zeroes `closeFrameCount`). -/
def missBranch (s : EngagementState) : EngagementState :=
  if s.lastLandmarks.isSome then
    let s := { s with missCount := s.missCount + 1 }
    let s :=
      if s.hasAnimationStarted then
        let s := { s with disengageCount := s.disengageCount + 1 }
        if s.disengageCount > DISENGAGE_FRAME_LIMIT then revertToGuide s else s
      else s
    if s.missCount > MAX_MISS_COUNT then { s with lastLandmarks := none } else s
  else if !s.hasAnimationStarted && s.guideHighlighted then
    { s with guideHighlighted := false, closeFrameCount := 0 }
  else s

/-- One processed iteration of `renderLoop`, restricted to its
state-machine effect: abort if the camera is off, initialize the animation
start time if unset, then dispatch on the detection outcome. A thrown
`detectForVideo` reschedules and returns without touching the state. The
`Bool` result records whether the auto-capture fired on this frame. -/
def renderLoopStep (s : EngagementState) (now : ℚ) (r : FrameResult) :
    EngagementState × Bool :=
  if s.isCameraOn then
    let s := if s.animationStart.isNone then { s with animationStart := some now } else s
    match r with
    | .throws => (s, false)
    | .noDetection => (missBranch s, false)
    | .detection [] => (missBranch s, false)
    | .detection (face :: rest) => detectionBranch s now (face :: rest) face
  else (s, false)

/-- Run a list of frames through `renderLoopStep` (all at time 0, which no
counter depends on), returning the final state and how many times the
auto-capture fired. -/
def runFrames (s : EngagementState) (frames : List FrameResult) :
    EngagementState × Nat :=
  match frames with
  | [] => (s, 0)
  | r :: rest =>
      let p := renderLoopStep s 0 r
      let q := runFrames p.1 rest
      (q.1, (if p.2 then 1 else 0) + q.2)

/-- The state-reset effect of `stopCamera`: a no-op on the machine state
when the camera is already off and no stream is held; otherwise every
counter, flag and retained value is cleared and the phase returns to
`Guide`. -/
def stopCamera (s : EngagementState) : EngagementState :=
  if !s.isCameraOn && !s.hasStream then s
  else
    { s with
      isCameraOn := false
      hasStream := false
      missCount := 0
      lastLandmarks := none
      animationStart := none
      disengageCount := 0
      closeFrameCount := 0
      hasAnimationStarted := false
      guideHighlighted := false
      hasAutoCaptured := false
      autoCaptureFrameCount := 0 }

/-- The state reset performed by `startCamera`'s success path once the
stream is acquired: all counters and flags cleared, camera on, phase
`Guide`. -/
def startCamera (s : EngagementState) : EngagementState :=
  { s with
    hasStream := true
    lastLandmarks := none
    missCount := 0
    isCameraOn := true
    hasAnimationStarted := false
    guideHighlighted := false
    hasAutoCaptured := false
    autoCaptureFrameCount := 0
    disengageCount := 0
    closeFrameCount := 0
    animationStart := none }

/-- The machine state with every field cleared and the camera off. -/
def clearedState : EngagementState :=
  { isCameraOn := false
    hasStream := false
    hasAnimationStarted := false
    guideHighlighted := false
    hasAutoCaptured := false
    closeFrameCount := 0
    disengageCount := 0
    missCount := 0
    autoCaptureFrameCount := 0
    animationStart := none
    lastLandmarks := none }

/-- The state right after a successful `startCamera` on a fresh component. -/
def freshState : EngagementState := startCamera clearedState

/-! Capture pipeline geometry (`captureScreenshot`). -/

/-- The source video element's pixel dimensions. -/
structure VideoFrame where
  videoWidth : Nat
  videoHeight : Nat
deriving DecidableEq, Repr

/-- Canvas `drawImage(video, dx, dy, dw, dh)`: the video point at
normalized coordinates (u, v) is painted at user-space point
(dx + u·dw, dy + v·dh). -/
def drawImagePoint (dx dy dw dh u v : ℚ) : ℚ × ℚ :=
  (dx + u * dw, dy + v * dh)

/-- The transform installed by `ctx.scale(-1, 1)` before the draw:
user-space (x, y) maps to device-space (−x, y). -/
def mirrorTransform (p : ℚ × ℚ) : ℚ × ℚ := (-p.1, p.2)

/-- A captured artifact: the capture canvas dimensions together with the
device-space placement of each normalized video point. -/
structure CaptureArtifact where
  width : Nat
  height : Nat
  place : ℚ → ℚ → ℚ × ℚ

/-- The geometry of `captureScreenshot`: bail out when the camera is off or
either video dimension is 0; otherwise size the capture canvas to the
video's dimensions and paint the mirrored frame via `scale(-1, 1)` and
`drawImage(video, -width, 0, width, height)`. -/
def captureScreenshot (cameraOn : Bool) (video : VideoFrame) :
    Option CaptureArtifact :=
  if !cameraOn || video.videoWidth == 0 || video.videoHeight == 0 then none
  else
    some
      { width := video.videoWidth
        height := video.videoHeight
        place := fun u v =>
          mirrorTransform
            (drawImagePoint (-(video.videoWidth : ℚ)) 0
              (video.videoWidth : ℚ) (video.videoHeight : ℚ) u v) }

/-! Concrete landmark sets used as test inputs. -/

/-- A landmark point with both coordinates finite. -/
def pt (a b : ℚ) : LMPoint := ⟨some (.finite a), some (.finite b)⟩

/-- A face whose bounding box is 0.32 × 0.38: close but not aligned. -/
def closeFace : Face := [pt (1/10) (1/10), pt (42/100) (48/100)]

/-- A face whose bounding box is 0.4 × 0.5 centered at (0.5, 0.5):
aligned (and close). -/
def alignedFace : Face := [pt (3/10) (1/4), pt (7/10) (3/4)]

/-- A face whose bounding box is 0.1 × 0.1: neither close nor aligned. -/
def farFace : Face := [pt (45/100) (45/100), pt (55/100) (55/100)]

/-- A face containing two finite points spanning an aligned bounding box
plus one point with a NaN x coordinate. -/
def nanFace : Face := [pt (2/10) (2/10), pt (8/10) (8/10), ⟨some .nan, some (.finite (1/2))⟩]

/-- Folding one finite (x,y) pair into the extrema; this is what
`updateBounds` does on a point both of whose coordinates are finite. -/
def updateBoundsQ (b : Bounds) (p : ℚ × ℚ) : Bounds :=
  ⟨jsMin b.minX (.finite p.1), jsMax b.maxX (.finite p.1),
   jsMin b.minY (.finite p.2), jsMax b.maxY (.finite p.2)⟩

/-- A coordinate that never poisons the bounding box: absent, or a finite
number. -/
def coordOk : Option JsNumber → Prop
  | none => True
  | some (.finite _) => True
  | _ => False

/-- A landmark point whose coordinates are absent or finite. -/
def pointOk (p : LMPoint) : Prop := coordOk p.x ∧ coordOk p.y

/-- A canonical `Locked` state: camera on, fresh counters, landmarks
retained, capture latch clear. -/
def lockedBase : EngagementState :=
  { isCameraOn := true
    hasStream := true
    hasAnimationStarted := true
    guideHighlighted := false
    hasAutoCaptured := false
    closeFrameCount := 0
    disengageCount := 0
    missCount := 0
    autoCaptureFrameCount := 0
    animationStart := some 0
    lastLandmarks := some [closeFace] }

theorem evaluateAlignment_closeFace : evaluateAlignment closeFace = ⟨false, true⟩ := by
  simp only [closeFace, evaluateAlignment, updateBounds, initialBounds, jsMin, jsMax,
    List.foldl, List.isEmpty, pt, ALIGNMENT_TARGET]
  norm_num

theorem evaluateAlignment_alignedFace : evaluateAlignment alignedFace = ⟨true, true⟩ := by
  simp only [alignedFace, evaluateAlignment, updateBounds, initialBounds, jsMin, jsMax,
    List.foldl, List.isEmpty, pt, ALIGNMENT_TARGET]
  norm_num

theorem evaluateAlignment_farFace : evaluateAlignment farFace = ⟨false, false⟩ := by
  simp only [farFace, evaluateAlignment, updateBounds, initialBounds, jsMin, jsMax,
    List.foldl, List.isEmpty, pt, ALIGNMENT_TARGET]
  norm_num

/-! Bounding-box fold lemmas for the alignment evaluator. -/

theorem jsMin_nan_left (a : JsNumber) : jsMin .nan a = .nan := by
  cases a <;> rfl

theorem jsMin_nan_right (a : JsNumber) : jsMin a .nan = .nan := by
  cases a <;> rfl

theorem jsMax_nan_left (a : JsNumber) : jsMax .nan a = .nan := by
  cases a <;> rfl

theorem jsMax_nan_right (a : JsNumber) : jsMax a .nan = .nan := by
  cases a <;> rfl

theorem updateBounds_ok_none (b : Bounds) (p : LMPoint)
    (h : p.x = none ∨ p.y = none) : updateBounds b p = b := by
  rcases h with h | h
  · rw [updateBounds, h]
  · cases hx : p.x <;> rw [updateBounds, hx, h]

theorem updateBounds_finite (b : Bounds) (a c : ℚ) :
    updateBounds b ⟨some (.finite a), some (.finite c)⟩ = updateBoundsQ b (a, c) := rfl

/-- On points whose coordinates are all absent-or-finite, the source's
bounds fold agrees with the fold over the finite pairs alone. -/
theorem foldl_updateBounds_ok (L : List LMPoint) (hL : ∀ p ∈ L, pointOk p) :
    ∀ b : Bounds, L.foldl updateBounds b = (L.filterMap finitePair).foldl updateBoundsQ b := by
  induction L with
  | nil => intro b; rfl
  | cons p L ih =>
      intro b
      have hp : pointOk p := hL p (List.mem_cons_self ..)
      have hrest : ∀ q ∈ L, pointOk q := fun q hq => hL q (List.mem_cons_of_mem _ hq)
      rcases hp with ⟨hx, hy⟩
      match hpx : p.x, hpy : p.y with
      | none, _ =>
          have h1 : updateBounds b p = b := updateBounds_ok_none b p (Or.inl hpx)
          have h2 : finitePair p = none := by rw [finitePair, hpx]
          simp [List.foldl, List.filterMap, h1, h2, ih hrest]
      | some v, none =>
          have h1 : updateBounds b p = b := updateBounds_ok_none b p (Or.inr hpy)
          have h2 : finitePair p = none := by rw [finitePair, hpx, hpy]; cases v <;> rfl
          simp [List.foldl, List.filterMap, h1, h2, ih hrest]
      | some (.finite a), some (.finite c) =>
          have h1 : updateBounds b p = updateBoundsQ b (a, c) := by
            rw [updateBounds, hpx, hpy]; rfl
          have h2 : finitePair p = some (a, c) := by rw [finitePair, hpx, hpy]
          simp [List.foldl, List.filterMap, h1, h2, ih hrest]
      | some .nan, some v => simp [coordOk, hpx] at hx
      | some .inf, some v => simp [coordOk, hpx] at hx
      | some .negInf, some v => simp [coordOk, hpx] at hx
      | some (.finite a), some .nan => simp [coordOk, hpy] at hy
      | some (.finite a), some .inf => simp [coordOk, hpy] at hy
      | some (.finite a), some .negInf => simp [coordOk, hpy] at hy

/-- Folding finite pairs from all-finite extrema yields the componentwise
rational min/max folds. -/
theorem foldl_updateBoundsQ (qs : List (ℚ × ℚ)) :
    ∀ a b c d : ℚ,
      qs.foldl updateBoundsQ ⟨.finite a, .finite b, .finite c, .finite d⟩ =
        ⟨.finite (qs.foldl (fun x p => min x p.1) a),
         .finite (qs.foldl (fun x p => max x p.1) b),
         .finite (qs.foldl (fun x p => min x p.2) c),
         .finite (qs.foldl (fun x p => max x p.2) d)⟩ := by
  induction qs with
  | nil => intro a b c d; rfl
  | cons q qs ih =>
      intro a b c d
      simp only [List.foldl, updateBoundsQ, jsMin, jsMax]
      exact ih (min a q.1) (max b q.1) (min c q.2) (max d q.2)

theorem foldl_min_le_foldl_max (qs : List (ℚ × ℚ))
    (f : ℚ × ℚ → ℚ) :
    ∀ a b : ℚ, a ≤ b →
      qs.foldl (fun x p => min x (f p)) a ≤ qs.foldl (fun x p => max x (f p)) b := by
  induction qs with
  | nil => intro a b h; exact h
  | cons q qs ih =>
      intro a b h
      simp only [List.foldl]
      exact ih _ _ (le_trans (min_le_left _ _) (le_trans h (le_max_left _ _)))

/-- On landmark lists all of whose coordinates are absent or finite, the
source evaluator agrees with the spec-worded evaluator. -/
theorem evaluateAlignment_eq_spec_of_ok (L : List LMPoint)
    (hL : ∀ p ∈ L, pointOk p) :
    evaluateAlignment L = evaluateAlignmentSpec L := by
  by_cases hE : L.isEmpty
  · have : L = [] := List.isEmpty_iff.mp hE
    subst this
    rfl
  · rw [evaluateAlignment, if_neg hE, foldl_updateBounds_ok L hL initialBounds]
    rw [evaluateAlignmentSpec]
    cases hfp : L.filterMap finitePair with
    | nil => rfl
    | cons q qs =>
        have hstep : updateBoundsQ initialBounds q =
            ⟨.finite q.1, .finite q.1, .finite q.2, .finite q.2⟩ := by
          simp [updateBoundsQ, initialBounds, jsMin, jsMax]
        simp only [List.foldl, hstep, foldl_updateBoundsQ]
        have hx : qs.foldl (fun x p => min x p.1) q.1 ≤ qs.foldl (fun x p => max x p.1) q.1 :=
          foldl_min_le_foldl_max qs (fun p => p.1) q.1 q.1 le_rfl
        have hy : qs.foldl (fun x p => min x p.2) q.2 ≤ qs.foldl (fun x p => max x p.2) q.2 :=
          foldl_min_le_foldl_max qs (fun p => p.2) q.2 q.2 le_rfl
        have hwx : max 0 (qs.foldl (fun x p => max x p.1) q.1 - qs.foldl (fun x p => min x p.1) q.1)
            = qs.foldl (fun x p => max x p.1) q.1 - qs.foldl (fun x p => min x p.1) q.1 :=
          max_eq_right (by linarith)
        have hwy : max 0 (qs.foldl (fun x p => max x p.2) q.2 - qs.foldl (fun x p => min x p.2) q.2)
            = qs.foldl (fun x p => max x p.2) q.2 - qs.foldl (fun x p => min x p.2) q.2 :=
          max_eq_right (by linarith)
        rw [hwx, hwy]

theorem jsMax_up (b v : JsNumber) (h : v = .inf ∨ v = .nan) :
    jsMax b v = .inf ∨ jsMax b v = .nan := by
  rcases h with h | h <;> subst h <;> cases b <;> simp [jsMax]

theorem jsMin_down (b v : JsNumber) (h : v = .negInf ∨ v = .nan) :
    jsMin b v = .negInf ∨ jsMin b v = .nan := by
  rcases h with h | h <;> subst h <;> cases b <;> simp [jsMin]

theorem jsMax_up_pres (b v : JsNumber) (h : b = .inf ∨ b = .nan) :
    jsMax b v = .inf ∨ jsMax b v = .nan := by
  rcases h with h | h <;> subst h <;> cases v <;> simp [jsMax]

theorem jsMin_down_pres (b v : JsNumber) (h : b = .negInf ∨ b = .nan) :
    jsMin b v = .negInf ∨ jsMin b v = .nan := by
  rcases h with h | h <;> subst h <;> cases v <;> simp [jsMin]

theorem foldl_updateBounds_maxX_poisoned (L : List LMPoint) :
    ∀ b : Bounds, (b.maxX = .inf ∨ b.maxX = .nan) →
      ((L.foldl updateBounds b).maxX = .inf ∨ (L.foldl updateBounds b).maxX = .nan) := by
  induction L with
  | nil => intro b h; exact h
  | cons p L ih =>
      intro b h
      simp only [List.foldl]
      apply ih
      cases hx : p.x <;> cases hy : p.y <;> rw [updateBounds, hx, hy]
      · exact h
      · exact h
      · exact h
      · exact jsMax_up_pres _ _ h

theorem foldl_updateBounds_minX_poisoned (L : List LMPoint) :
    ∀ b : Bounds, (b.minX = .negInf ∨ b.minX = .nan) →
      ((L.foldl updateBounds b).minX = .negInf ∨ (L.foldl updateBounds b).minX = .nan) := by
  induction L with
  | nil => intro b h; exact h
  | cons p L ih =>
      intro b h
      simp only [List.foldl]
      apply ih
      cases hx : p.x <;> cases hy : p.y <;> rw [updateBounds, hx, hy]
      · exact h
      · exact h
      · exact h
      · exact jsMin_down_pres _ _ h

theorem foldl_updateBounds_maxY_poisoned (L : List LMPoint) :
    ∀ b : Bounds, (b.maxY = .inf ∨ b.maxY = .nan) →
      ((L.foldl updateBounds b).maxY = .inf ∨ (L.foldl updateBounds b).maxY = .nan) := by
  induction L with
  | nil => intro b h; exact h
  | cons p L ih =>
      intro b h
      simp only [List.foldl]
      apply ih
      cases hx : p.x <;> cases hy : p.y <;> rw [updateBounds, hx, hy]
      · exact h
      · exact h
      · exact h
      · exact jsMax_up_pres _ _ h

theorem foldl_updateBounds_minY_poisoned (L : List LMPoint) :
    ∀ b : Bounds, (b.minY = .negInf ∨ b.minY = .nan) →
      ((L.foldl updateBounds b).minY = .negInf ∨ (L.foldl updateBounds b).minY = .nan) := by
  induction L with
  | nil => intro b h; exact h
  | cons p L ih =>
      intro b h
      simp only [List.foldl]
      apply ih
      cases hx : p.x <;> cases hy : p.y <;> rw [updateBounds, hx, hy]
      · exact h
      · exact h
      · exact h
      · exact jsMin_down_pres _ _ h

theorem evaluateAlignment_default (L : List LMPoint)
    (h : (∀ q, (L.foldl updateBounds initialBounds).minX ≠ .finite q) ∨
         (∀ q, (L.foldl updateBounds initialBounds).maxX ≠ .finite q) ∨
         (∀ q, (L.foldl updateBounds initialBounds).minY ≠ .finite q) ∨
         (∀ q, (L.foldl updateBounds initialBounds).maxY ≠ .finite q)) :
    evaluateAlignment L = ⟨false, false⟩ := by
  rw [evaluateAlignment]
  by_cases hE : L.isEmpty
  · rw [if_pos hE]
  · rw [if_neg hE]
    rcases hfold : L.foldl updateBounds initialBounds with ⟨bm, bM, cm, cM⟩
    rw [hfold] at h
    simp only [hfold]
    cases bm <;> cases bM <;> cases cm <;> cases cM <;>
      first
        | rfl
        | (rcases h with h | h | h | h <;> exact (h _ rfl).elim)

theorem foldl_mk_maxX_poisoned (L : List LMPoint) (m M mY MY : JsNumber)
    (h : M = .inf ∨ M = .nan) :
    ((L.foldl updateBounds ⟨m, M, mY, MY⟩).maxX = .inf ∨
     (L.foldl updateBounds ⟨m, M, mY, MY⟩).maxX = .nan) :=
  foldl_updateBounds_maxX_poisoned L ⟨m, M, mY, MY⟩ h

theorem foldl_mk_minX_poisoned (L : List LMPoint) (m M mY MY : JsNumber)
    (h : m = .negInf ∨ m = .nan) :
    ((L.foldl updateBounds ⟨m, M, mY, MY⟩).minX = .negInf ∨
     (L.foldl updateBounds ⟨m, M, mY, MY⟩).minX = .nan) :=
  foldl_updateBounds_minX_poisoned L ⟨m, M, mY, MY⟩ h

theorem foldl_mk_maxY_poisoned (L : List LMPoint) (m M mY MY : JsNumber)
    (h : MY = .inf ∨ MY = .nan) :
    ((L.foldl updateBounds ⟨m, M, mY, MY⟩).maxY = .inf ∨
     (L.foldl updateBounds ⟨m, M, mY, MY⟩).maxY = .nan) :=
  foldl_updateBounds_maxY_poisoned L ⟨m, M, mY, MY⟩ h

theorem foldl_mk_minY_poisoned (L : List LMPoint) (m M mY MY : JsNumber)
    (h : mY = .negInf ∨ mY = .nan) :
    ((L.foldl updateBounds ⟨m, M, mY, MY⟩).minY = .negInf ∨
     (L.foldl updateBounds ⟨m, M, mY, MY⟩).minY = .nan) :=
  foldl_updateBounds_minY_poisoned L ⟨m, M, mY, MY⟩ h

/-- Any retained landmark point (both coordinates of type number) with a
non-finite coordinate forces the source evaluator to `{false,false}`,
whatever finite points accompany it. -/
theorem evaluateAlignment_poisoned (L : List LMPoint) (p : LMPoint)
    (hp : p ∈ L) (vx vy : JsNumber) (hx : p.x = some vx) (hy : p.y = some vy)
    (hbad : (∀ q, vx ≠ .finite q) ∨ (∀ q, vy ≠ .finite q)) :
    evaluateAlignment L = ⟨false, false⟩ := by
  obtain ⟨L1, L2, rfl⟩ := List.append_of_mem hp
  apply evaluateAlignment_default
  rw [List.foldl_append, List.foldl_cons]
  have hupd : updateBounds (List.foldl updateBounds initialBounds L1) p =
      ⟨jsMin (List.foldl updateBounds initialBounds L1).minX vx,
       jsMax (List.foldl updateBounds initialBounds L1).maxX vx,
       jsMin (List.foldl updateBounds initialBounds L1).minY vy,
       jsMax (List.foldl updateBounds initialBounds L1).maxY vy⟩ := by
    rw [updateBounds, hx, hy]
  rw [hupd]
  rcases hbad with hbad | hbad
  · cases vx with
    | finite q => exact absurd rfl (hbad q)
    | nan =>
        right; left
        intro q hq
        rcases foldl_mk_maxX_poisoned L2 _ _ _ _
            (Or.inr (jsMax_nan_right _)) with h' | h' <;> rw [hq] at h' <;> cases h'
    | inf =>
        right; left
        intro q hq
        rcases foldl_mk_maxX_poisoned L2 _ _ _ _
            (jsMax_up _ _ (Or.inl rfl)) with h' | h' <;> rw [hq] at h' <;> cases h'
    | negInf =>
        left
        intro q hq
        rcases foldl_mk_minX_poisoned L2 _ _ _ _
            (jsMin_down _ _ (Or.inl rfl)) with h' | h' <;> rw [hq] at h' <;> cases h'
  · cases vy with
    | finite q => exact absurd rfl (hbad q)
    | nan =>
        right; right; right
        intro q hq
        rcases foldl_mk_maxY_poisoned L2 _ _ _ _
            (Or.inr (jsMax_nan_right _)) with h' | h' <;> rw [hq] at h' <;> cases h'
    | inf =>
        right; right; right
        intro q hq
        rcases foldl_mk_maxY_poisoned L2 _ _ _ _
            (jsMax_up _ _ (Or.inl rfl)) with h' | h' <;> rw [hq] at h' <;> cases h'
    | negInf =>
        right; right; left
        intro q hq
        rcases foldl_mk_minY_poisoned L2 _ _ _ _
            (jsMin_down _ _ (Or.inl rfl)) with h' | h' <;> rw [hq] at h' <;> cases h'

theorem evaluateAlignment_nanFace : evaluateAlignment nanFace = ⟨false, false⟩ := by
  apply evaluateAlignment_poisoned nanFace ⟨some .nan, some (.finite (1/2))⟩
    (by simp [nanFace]) .nan (.finite (1/2)) rfl rfl
  left
  intro q h
  cases h

theorem evaluateAlignmentSpec_nanFace : evaluateAlignmentSpec nanFace = ⟨true, true⟩ := by
  simp only [nanFace, evaluateAlignmentSpec, finitePair, List.filterMap, pt, List.foldl,
    ALIGNMENT_TARGET]
  norm_num

set_option maxRecDepth 400000
set_option maxHeartbeats 2000000

/-- The alignment size thresholds dominate the near thresholds, so an
aligned verdict is always also a close verdict. -/
theorem isAligned_imp_isClose (L : List LMPoint)
    (h : (evaluateAlignment L).isAligned = true) :
    (evaluateAlignment L).isClose = true := by
  rw [evaluateAlignment] at h ⊢
  by_cases hE : L.isEmpty
  · rw [if_pos hE] at h; cases h
  · rw [if_neg hE] at h ⊢
    generalize L.foldl updateBounds initialBounds = b at h ⊢
    obtain ⟨bm, bM, cm, cM⟩ := b
    cases bm <;> cases bM <;> cases cm <;> cases cM <;>
      first
        | cases h
        | (simp only [Bool.and_eq_true, decide_eq_true_eq, ALIGNMENT_TARGET] at h ⊢
           obtain ⟨⟨⟨hw, hh⟩, _⟩, _⟩ := h
           constructor <;> linarith)

/-- Claim C1: in the Locked phase with the capture latch clear, every close
frame resets the disengage counter and increments the auto-capture counter;
the capture fires exactly when the counter reaches 60 and latches
`hasAutoCaptured`; once latched no close frame ever fires again; 100
consecutive close frames from a fresh Locked state fire exactly one
capture, at frame 60. -/
theorem claimC1_autoCapture :
    (∀ (s : EngagementState) (now : ℚ) (f : Face) (rest : List Face),
        s.isCameraOn = true → s.hasAnimationStarted = true → s.hasAutoCaptured = false →
        (evaluateAlignment f).isClose = true →
        ((renderLoopStep s now (.detection (f :: rest))).1.disengageCount = 0 ∧
         (renderLoopStep s now (.detection (f :: rest))).1.autoCaptureFrameCount =
           s.autoCaptureFrameCount + 1 ∧
         ((renderLoopStep s now (.detection (f :: rest))).2 = true ↔
           s.autoCaptureFrameCount + 1 ≥ AUTO_CAPTURE_FRAMES) ∧
         ((renderLoopStep s now (.detection (f :: rest))).1.hasAutoCaptured = true ↔
           s.autoCaptureFrameCount + 1 ≥ AUTO_CAPTURE_FRAMES))) ∧
    (∀ (s : EngagementState) (now : ℚ) (f : Face) (rest : List Face),
        s.isCameraOn = true → s.hasAnimationStarted = true → s.hasAutoCaptured = true →
        (evaluateAlignment f).isClose = true →
        ((renderLoopStep s now (.detection (f :: rest))).2 = false ∧
         (renderLoopStep s now (.detection (f :: rest))).1.hasAutoCaptured = true ∧
         (renderLoopStep s now (.detection (f :: rest))).1.hasAnimationStarted = true)) ∧
    (runFrames lockedBase (List.replicate 59 (.detection [closeFace]))).2 = 0 ∧
    (runFrames lockedBase (List.replicate 59 (.detection [closeFace]))).1.hasAutoCaptured = false ∧
    (runFrames lockedBase (List.replicate 60 (.detection [closeFace]))).2 = 1 ∧
    (runFrames lockedBase (List.replicate 60 (.detection [closeFace]))).1.hasAutoCaptured = true ∧
    (runFrames lockedBase (List.replicate 100 (.detection [closeFace]))).2 = 1 := by
  refine ⟨?_, ?_, ?_, ?_, ?_, ?_, ?_⟩
  · intro s now f rest hcam hlock hcap hclose
    by_cases ha : s.animationStart.isNone <;>
      by_cases h60 : s.autoCaptureFrameCount + 1 ≥ AUTO_CAPTURE_FRAMES <;>
        simp [renderLoopStep, detectionBranch, hcam, hlock, hcap, hclose, ha, h60]
  · intro s now f rest hcam hlock hcap hclose
    by_cases ha : s.animationStart.isNone <;>
      simp [renderLoopStep, detectionBranch, hcam, hlock, hcap, hclose, ha]
  · simp [runFrames, renderLoopStep, detectionBranch, evaluateAlignment_closeFace,
      lockedBase, AUTO_CAPTURE_FRAMES, List.replicate]
  · simp [runFrames, renderLoopStep, detectionBranch, evaluateAlignment_closeFace,
      lockedBase, AUTO_CAPTURE_FRAMES, List.replicate]
  · simp [runFrames, renderLoopStep, detectionBranch, evaluateAlignment_closeFace,
      lockedBase, AUTO_CAPTURE_FRAMES, List.replicate]
  · simp [runFrames, renderLoopStep, detectionBranch, evaluateAlignment_closeFace,
      lockedBase, AUTO_CAPTURE_FRAMES, List.replicate]
  · simp [runFrames, renderLoopStep, detectionBranch, evaluateAlignment_closeFace,
      lockedBase, AUTO_CAPTURE_FRAMES, List.replicate]

theorem claimC1_autoCapture_witness :
    (renderLoopStep lockedBase 0 (.detection [closeFace])).1.disengageCount = 0 ∧
    (renderLoopStep lockedBase 0 (.detection [closeFace])).1.autoCaptureFrameCount =
      lockedBase.autoCaptureFrameCount + 1 ∧
    ((renderLoopStep lockedBase 0 (.detection [closeFace])).2 = true ↔
      lockedBase.autoCaptureFrameCount + 1 ≥ AUTO_CAPTURE_FRAMES) ∧
    ((renderLoopStep lockedBase 0 (.detection [closeFace])).1.hasAutoCaptured = true ↔
      lockedBase.autoCaptureFrameCount + 1 ≥ AUTO_CAPTURE_FRAMES) :=
  claimC1_autoCapture.1 lockedBase 0 closeFace [] rfl rfl rfl
    (by rw [evaluateAlignment_closeFace])

/-- Claim C2 fails on the code: a Locked→Guide reversion caused by
no-detection frames does not reset `autoCaptureFrameCount`. From a fresh
Locked state, 30 close frames bring the auto-capture counter to 30, and 13
missed frames then revert to Guide with the counter still at 30. -/
theorem claimC2_counterexample :
    (runFrames lockedBase
      (List.replicate 30 (.detection [closeFace]) ++ List.replicate 13 .noDetection)).1.hasAnimationStarted = false ∧
    (runFrames lockedBase
      (List.replicate 30 (.detection [closeFace]) ++ List.replicate 13 .noDetection)).1.autoCaptureFrameCount = 30 := by
  constructor <;>
    simp [runFrames, renderLoopStep, detectionBranch, missBranch, revertToGuide,
      evaluateAlignment_closeFace, lockedBase, DISENGAGE_FRAME_LIMIT, CLOSE_UNLOCK_FRAMES,
      MAX_MISS_COUNT, AUTO_CAPTURE_FRAMES, List.replicate]

/-- Claim C2, amended: on a Locked→Guide reversion, `closeFrameCount`,
`disengageFrameCount` and `missCount` are reset to 0 and
`lastKnownLandmarks` and `animationStartTime` are cleared on both
branches; `autoCaptureFrameCount` ends at 0 when the reversion is caused
by a detected-but-not-close frame, but keeps its previous value when the
reversion is caused by a no-detection frame. -/
theorem claimC2_revertResets :
    (∀ (s : EngagementState) (now : ℚ) (f : Face) (rest : List Face),
        s.isCameraOn = true → s.hasAnimationStarted = true →
        (evaluateAlignment f).isClose = false →
        s.disengageCount + 1 > DISENGAGE_FRAME_LIMIT →
        ((renderLoopStep s now (.detection (f :: rest))).1.hasAnimationStarted = false ∧
         (renderLoopStep s now (.detection (f :: rest))).1.closeFrameCount = 0 ∧
         (renderLoopStep s now (.detection (f :: rest))).1.disengageCount = 0 ∧
         (renderLoopStep s now (.detection (f :: rest))).1.missCount = 0 ∧
         (renderLoopStep s now (.detection (f :: rest))).1.autoCaptureFrameCount = 0 ∧
         (renderLoopStep s now (.detection (f :: rest))).1.lastLandmarks = none ∧
         (renderLoopStep s now (.detection (f :: rest))).1.animationStart = none)) ∧
    (∀ (s : EngagementState) (now : ℚ) (L : List Face),
        s.isCameraOn = true → s.hasAnimationStarted = true →
        s.lastLandmarks = some L →
        s.disengageCount + 1 > DISENGAGE_FRAME_LIMIT →
        ((renderLoopStep s now .noDetection).1.hasAnimationStarted = false ∧
         (renderLoopStep s now .noDetection).1.closeFrameCount = 0 ∧
         (renderLoopStep s now .noDetection).1.disengageCount = 0 ∧
         (renderLoopStep s now .noDetection).1.missCount = 0 ∧
         (renderLoopStep s now .noDetection).1.lastLandmarks = none ∧
         (renderLoopStep s now .noDetection).1.animationStart = none ∧
         (renderLoopStep s now .noDetection).1.autoCaptureFrameCount =
           s.autoCaptureFrameCount)) := by
  constructor
  · intro s now f rest hcam hlock hclose hrev
    simp only [DISENGAGE_FRAME_LIMIT] at hrev
    by_cases ha : s.animationStart.isNone <;>
      simp [renderLoopStep, detectionBranch, revertToGuide, hcam, hlock, hclose, ha, hrev,
        DISENGAGE_FRAME_LIMIT]
  · intro s now L hcam hlock hlm hrev
    simp only [DISENGAGE_FRAME_LIMIT] at hrev
    by_cases ha : s.animationStart.isNone <;>
      simp [renderLoopStep, missBranch, revertToGuide, hcam, hlock, hlm, ha, hrev,
        MAX_MISS_COUNT, DISENGAGE_FRAME_LIMIT]

theorem claimC2_revertResets_witness :
    (renderLoopStep { lockedBase with disengageCount := 12 } 0
      (.detection [farFace])).1.hasAnimationStarted = false ∧
    (renderLoopStep { lockedBase with disengageCount := 12 } 0
      (.detection [farFace])).1.closeFrameCount = 0 ∧
    (renderLoopStep { lockedBase with disengageCount := 12 } 0
      (.detection [farFace])).1.disengageCount = 0 ∧
    (renderLoopStep { lockedBase with disengageCount := 12 } 0
      (.detection [farFace])).1.missCount = 0 ∧
    (renderLoopStep { lockedBase with disengageCount := 12 } 0
      (.detection [farFace])).1.autoCaptureFrameCount = 0 ∧
    (renderLoopStep { lockedBase with disengageCount := 12 } 0
      (.detection [farFace])).1.lastLandmarks = none ∧
    (renderLoopStep { lockedBase with disengageCount := 12 } 0
      (.detection [farFace])).1.animationStart = none :=
  claimC2_revertResets.1 { lockedBase with disengageCount := 12 } 0 farFace [] rfl rfl
    (by rw [evaluateAlignment_farFace]) (by decide)

/-- Claim C3: from Guide, a detection frame locks exactly when the verdict
is aligned or the updated close-frame counter reaches 6; on the transition
the close and disengage counters are reset and the animation start time is
set to the frame's time; from the fresh state, 6 consecutive close
not-aligned frames lock on the 6th frame exactly and not before. -/
theorem claimC3_guideUnlock :
    (∀ (s : EngagementState) (now : ℚ) (f : Face) (rest : List Face),
        s.isCameraOn = true → s.hasAnimationStarted = false →
        ((renderLoopStep s now (.detection (f :: rest))).1.hasAnimationStarted = true ↔
          ((evaluateAlignment f).isAligned = true ∨
            (if (evaluateAlignment f).isClose then s.closeFrameCount + 1 else 0) ≥
              CLOSE_UNLOCK_FRAMES))) ∧
    (∀ (s : EngagementState) (now : ℚ) (f : Face) (rest : List Face),
        s.isCameraOn = true → s.hasAnimationStarted = false →
        ((evaluateAlignment f).isAligned = true ∨
          (if (evaluateAlignment f).isClose then s.closeFrameCount + 1 else 0) ≥
            CLOSE_UNLOCK_FRAMES) →
        ((renderLoopStep s now (.detection (f :: rest))).1.closeFrameCount = 0 ∧
         (renderLoopStep s now (.detection (f :: rest))).1.disengageCount = 0 ∧
         (renderLoopStep s now (.detection (f :: rest))).1.animationStart = some now)) ∧
    (runFrames freshState (List.replicate 5 (.detection [closeFace]))).1.hasAnimationStarted
      = false ∧
    runFrames freshState (List.replicate 6 (.detection [closeFace])) = (lockedBase, 0) := by
  refine ⟨?_, ?_, ?_, ?_⟩
  · intro s now f rest hcam hguide
    simp only [CLOSE_UNLOCK_FRAMES]
    by_cases ha : s.animationStart.isNone <;>
      by_cases hg : s.guideHighlighted <;>
        by_cases hc : (evaluateAlignment f).isClose <;>
          by_cases halg : (evaluateAlignment f).isAligned <;>
            by_cases h6 : s.closeFrameCount + 1 ≥ 6 <;>
              simp [renderLoopStep, detectionBranch, hcam, hguide, ha, hg, hc, halg, h6,
                CLOSE_UNLOCK_FRAMES]
  · intro s now f rest hcam hguide hlockCond
    simp only [CLOSE_UNLOCK_FRAMES] at hlockCond
    by_cases ha : s.animationStart.isNone <;>
      by_cases hg : s.guideHighlighted <;>
        by_cases hc : (evaluateAlignment f).isClose <;>
          by_cases halg : (evaluateAlignment f).isAligned <;>
            by_cases h6 : s.closeFrameCount + 1 ≥ 6 <;>
              simp [renderLoopStep, detectionBranch, hcam, hguide, ha, hg, hc, halg, h6,
                CLOSE_UNLOCK_FRAMES] <;>
                simp [hc, halg, h6] at hlockCond
  · simp [runFrames, renderLoopStep, detectionBranch, missBranch, revertToGuide,
      evaluateAlignment_closeFace, freshState, startCamera, clearedState,
      DISENGAGE_FRAME_LIMIT, CLOSE_UNLOCK_FRAMES, MAX_MISS_COUNT, AUTO_CAPTURE_FRAMES,
      List.replicate]
  · simp [runFrames, renderLoopStep, detectionBranch, missBranch, revertToGuide,
      evaluateAlignment_closeFace, freshState, startCamera, clearedState, lockedBase,
      DISENGAGE_FRAME_LIMIT, CLOSE_UNLOCK_FRAMES, MAX_MISS_COUNT, AUTO_CAPTURE_FRAMES,
      List.replicate]

theorem claimC3_guideUnlock_witness :
    ((renderLoopStep freshState 0 (.detection [alignedFace])).1.hasAnimationStarted = true ↔
      ((evaluateAlignment alignedFace).isAligned = true ∨
        (if (evaluateAlignment alignedFace).isClose then freshState.closeFrameCount + 1 else 0) ≥
          CLOSE_UNLOCK_FRAMES)) :=
  claimC3_guideUnlock.1 freshState 0 alignedFace [] rfl rfl

/-- Claim C4: in Locked, a detected-but-not-close frame resets the
auto-capture counter and increments the disengage counter, a no-detection
frame (with landmarks retained) increments the disengage counter, and the
reversion to Guide happens exactly when the disengage counter exceeds 12;
13 consecutive such frames from a fresh Locked state revert, 12 do not. -/
theorem claimC4_disengageRevert :
    (∀ (s : EngagementState) (now : ℚ) (f : Face) (rest : List Face),
        s.isCameraOn = true → s.hasAnimationStarted = true →
        (evaluateAlignment f).isClose = false →
        ((renderLoopStep s now (.detection (f :: rest))).1.autoCaptureFrameCount = 0 ∧
         ((renderLoopStep s now (.detection (f :: rest))).1.hasAnimationStarted = false ↔
           s.disengageCount + 1 > DISENGAGE_FRAME_LIMIT) ∧
         (s.disengageCount + 1 ≤ DISENGAGE_FRAME_LIMIT →
           (renderLoopStep s now (.detection (f :: rest))).1.disengageCount =
             s.disengageCount + 1))) ∧
    (∀ (s : EngagementState) (now : ℚ) (L : List Face),
        s.isCameraOn = true → s.hasAnimationStarted = true → s.lastLandmarks = some L →
        (((renderLoopStep s now .noDetection).1.hasAnimationStarted = false ↔
           s.disengageCount + 1 > DISENGAGE_FRAME_LIMIT) ∧
         (s.disengageCount + 1 ≤ DISENGAGE_FRAME_LIMIT →
           (renderLoopStep s now .noDetection).1.disengageCount = s.disengageCount + 1))) ∧
    (runFrames lockedBase (List.replicate 12 (.detection [farFace]))).1.hasAnimationStarted
      = true ∧
    (runFrames lockedBase (List.replicate 12 (.detection [farFace]))).1.disengageCount = 12 ∧
    (runFrames lockedBase (List.replicate 13 (.detection [farFace]))).1.hasAnimationStarted
      = false ∧
    (runFrames lockedBase (List.replicate 12 .noDetection)).1.hasAnimationStarted = true ∧
    (runFrames lockedBase (List.replicate 12 .noDetection)).1.disengageCount = 12 ∧
    (runFrames lockedBase (List.replicate 13 .noDetection)).1.hasAnimationStarted = false := by
  refine ⟨?_, ?_, ?_, ?_, ?_, ?_, ?_, ?_⟩
  · intro s now f rest hcam hlock hclose
    by_cases ha : s.animationStart.isNone <;>
      by_cases hrev : s.disengageCount + 1 > 12 <;>
        simp [renderLoopStep, detectionBranch, revertToGuide, hcam, hlock, hclose, ha, hrev,
          DISENGAGE_FRAME_LIMIT] <;> omega
  · intro s now L hcam hlock hlm
    by_cases ha : s.animationStart.isNone <;>
      by_cases hrev : s.disengageCount + 1 > 12 <;>
        by_cases hm : s.missCount + 1 > 45 <;>
          simp [renderLoopStep, missBranch, revertToGuide, hcam, hlock, hlm, ha, hrev, hm,
            DISENGAGE_FRAME_LIMIT, MAX_MISS_COUNT] <;> omega
  · simp [runFrames, renderLoopStep, detectionBranch, missBranch, revertToGuide,
      evaluateAlignment_farFace, lockedBase, DISENGAGE_FRAME_LIMIT, CLOSE_UNLOCK_FRAMES,
      MAX_MISS_COUNT, AUTO_CAPTURE_FRAMES, List.replicate]
  · simp [runFrames, renderLoopStep, detectionBranch, missBranch, revertToGuide,
      evaluateAlignment_farFace, lockedBase, DISENGAGE_FRAME_LIMIT, CLOSE_UNLOCK_FRAMES,
      MAX_MISS_COUNT, AUTO_CAPTURE_FRAMES, List.replicate]
  · simp [runFrames, renderLoopStep, detectionBranch, missBranch, revertToGuide,
      evaluateAlignment_farFace, lockedBase, DISENGAGE_FRAME_LIMIT, CLOSE_UNLOCK_FRAMES,
      MAX_MISS_COUNT, AUTO_CAPTURE_FRAMES, List.replicate]
  · simp [runFrames, renderLoopStep, detectionBranch, missBranch, revertToGuide,
      lockedBase, DISENGAGE_FRAME_LIMIT, CLOSE_UNLOCK_FRAMES,
      MAX_MISS_COUNT, AUTO_CAPTURE_FRAMES, List.replicate]
  · simp [runFrames, renderLoopStep, detectionBranch, missBranch, revertToGuide,
      lockedBase, DISENGAGE_FRAME_LIMIT, CLOSE_UNLOCK_FRAMES,
      MAX_MISS_COUNT, AUTO_CAPTURE_FRAMES, List.replicate]
  · simp [runFrames, renderLoopStep, detectionBranch, missBranch, revertToGuide,
      lockedBase, DISENGAGE_FRAME_LIMIT, CLOSE_UNLOCK_FRAMES,
      MAX_MISS_COUNT, AUTO_CAPTURE_FRAMES, List.replicate]

theorem claimC4_disengageRevert_witness :
    (renderLoopStep lockedBase 0 (.detection [farFace])).1.autoCaptureFrameCount = 0 ∧
    ((renderLoopStep lockedBase 0 (.detection [farFace])).1.hasAnimationStarted = false ↔
      lockedBase.disengageCount + 1 > DISENGAGE_FRAME_LIMIT) ∧
    (lockedBase.disengageCount + 1 ≤ DISENGAGE_FRAME_LIMIT →
      (renderLoopStep lockedBase 0 (.detection [farFace])).1.disengageCount =
        lockedBase.disengageCount + 1) :=
  claimC4_disengageRevert.1 lockedBase 0 farFace [] rfl rfl
    (by rw [evaluateAlignment_farFace])

/-- Claim C5 fails on the code: a thrown detect call does not behave like
an empty detection result. In a Locked state with the disengage counter at
12 and landmarks retained, a no-detection frame reverts to Guide, while a
frame whose detect call throws leaves the state completely unchanged (in
particular, no miss is counted and the phase stays Locked). -/
theorem claimC5_counterexample :
    (renderLoopStep { lockedBase with disengageCount := 12 } 0 .throws).1 =
      { lockedBase with disengageCount := 12 } ∧
    (renderLoopStep { lockedBase with disengageCount := 12 } 0 .throws).1.missCount = 0 ∧
    (renderLoopStep { lockedBase with disengageCount := 12 } 0
      .noDetection).1.missCount = 0 ∧
    (renderLoopStep { lockedBase with disengageCount := 12 } 0
      .noDetection).1.hasAnimationStarted = false ∧
    (renderLoopStep { lockedBase with disengageCount := 12 } 0 .throws).1 ≠
      (renderLoopStep { lockedBase with disengageCount := 12 } 0 .noDetection).1 := by
  refine ⟨?_, ?_, ?_, ?_, ?_⟩ <;>
    simp [renderLoopStep, missBranch, revertToGuide, lockedBase,
      DISENGAGE_FRAME_LIMIT, MAX_MISS_COUNT]

/-- Claim C5, amended: when the detect call throws, the frame is skipped
entirely — no counter is updated, the phase does not change, no capture
fires — and the loop simply continues with the next frame; the thrown
frame is not fed to the state machine as an empty detection. -/
theorem claimC5_throwSkipsFrame :
    ∀ (s : EngagementState) (now : ℚ),
      s.animationStart.isSome = true →
      renderLoopStep s now .throws = (s, false) := by
  intro s now ha
  have ha' : s.animationStart.isNone = false := by
    cases h : s.animationStart <;> simp [h] at ha ⊢
  by_cases hcam : s.isCameraOn <;> simp [renderLoopStep, hcam, ha']

theorem claimC5_throwSkipsFrame_witness :
    renderLoopStep lockedBase 0 .throws = (lockedBase, false) :=
  claimC5_throwSkipsFrame lockedBase 0 rfl

/-- Claim C6 fails on the code: in Guide, a no-detection frame does not
reset `closeFrameCount` while landmarks are retained. From the fresh
state, 5 close frames then one missed frame leave `closeFrameCount` at 5,
and a single further close frame locks the mesh — the partial credit
survives the interruption. -/
theorem claimC6_counterexample :
    (runFrames freshState
      (List.replicate 5 (.detection [closeFace]) ++ [.noDetection])).1.closeFrameCount = 5 ∧
    (runFrames freshState
      (List.replicate 5 (.detection [closeFace]) ++ [.noDetection] ++
        [.detection [closeFace]])).1.hasAnimationStarted = true := by
  constructor <;>
    simp [runFrames, renderLoopStep, detectionBranch, missBranch, revertToGuide,
      evaluateAlignment_closeFace, freshState, startCamera, clearedState,
      DISENGAGE_FRAME_LIMIT, CLOSE_UNLOCK_FRAMES, MAX_MISS_COUNT, AUTO_CAPTURE_FRAMES,
      List.replicate]

/-- Claim C6, amended: in Guide, a detected-but-not-close frame resets
`closeFrameCount` to 0; a no-detection frame leaves `closeFrameCount`
unchanged while landmarks are retained, and resets it only when no
landmarks are retained and the guide highlight was active (clearing the
highlight); with no retained landmarks and no active highlight it is left
unchanged. -/
theorem claimC6_closeFrameReset :
    (∀ (s : EngagementState) (now : ℚ) (f : Face) (rest : List Face),
        s.isCameraOn = true → s.hasAnimationStarted = false →
        (evaluateAlignment f).isClose = false →
        (renderLoopStep s now (.detection (f :: rest))).1.closeFrameCount = 0) ∧
    (∀ (s : EngagementState) (now : ℚ) (L : List Face),
        s.isCameraOn = true → s.hasAnimationStarted = false → s.lastLandmarks = some L →
        (renderLoopStep s now .noDetection).1.closeFrameCount = s.closeFrameCount) ∧
    (∀ (s : EngagementState) (now : ℚ),
        s.isCameraOn = true → s.hasAnimationStarted = false → s.lastLandmarks = none →
        s.guideHighlighted = true →
        ((renderLoopStep s now .noDetection).1.closeFrameCount = 0 ∧
         (renderLoopStep s now .noDetection).1.guideHighlighted = false)) ∧
    (∀ (s : EngagementState) (now : ℚ),
        s.isCameraOn = true → s.hasAnimationStarted = false → s.lastLandmarks = none →
        s.guideHighlighted = false →
        (renderLoopStep s now .noDetection).1.closeFrameCount = s.closeFrameCount) := by
  refine ⟨?_, ?_, ?_, ?_⟩
  · intro s now f rest hcam hguide hclose
    by_cases ha : s.animationStart.isNone <;>
      by_cases hg : s.guideHighlighted <;>
        by_cases halg : (evaluateAlignment f).isAligned <;>
          simp [renderLoopStep, detectionBranch, hcam, hguide, hclose, ha, hg, halg,
            CLOSE_UNLOCK_FRAMES]
  · intro s now L hcam hguide hlm
    by_cases ha : s.animationStart.isNone <;>
      by_cases hm : s.missCount + 1 > 45 <;>
        simp [renderLoopStep, missBranch, hcam, hguide, hlm, ha, hm, MAX_MISS_COUNT]
  · intro s now hcam hguide hlm hg
    by_cases ha : s.animationStart.isNone <;>
      simp [renderLoopStep, missBranch, hcam, hguide, hlm, hg, ha]
  · intro s now hcam hguide hlm hg
    by_cases ha : s.animationStart.isNone <;>
      simp [renderLoopStep, missBranch, hcam, hguide, hlm, hg, ha]

theorem claimC6_closeFrameReset_witness :
    (renderLoopStep freshState 0 (.detection [farFace])).1.closeFrameCount = 0 :=
  claimC6_closeFrameReset.1 freshState 0 farFace [] rfl rfl
    (by rw [evaluateAlignment_farFace])

/-- Claim C7 fails on the code: the bounding box is not taken over the
finite points alone. On a set holding two finite points spanning an
aligned box plus one NaN-coordinate point, the spec-worded evaluator
returns `{true,true}` while the source evaluator returns `{false,false}`:
the NaN propagates through `Math.min`/`Math.max` and poisons the box. -/
theorem claimC7_counterexample :
    evaluateAlignment nanFace = ⟨false, false⟩ ∧
    evaluateAlignmentSpec nanFace = ⟨true, true⟩ ∧
    evaluateAlignment nanFace ≠ evaluateAlignmentSpec nanFace := by
  refine ⟨evaluateAlignment_nanFace, evaluateAlignmentSpec_nanFace, ?_⟩
  rw [evaluateAlignment_nanFace, evaluateAlignmentSpec_nanFace]
  simp

/-- Claim C7, amended: the evaluator skips points whose coordinates are not
numbers and agrees with the claimed finite-bounding-box formulas whenever
every coordinate present is finite (in particular `{false,false}` on the
empty set); but a retained point with a NaN or infinite coordinate forces
the result to `{false,false}` even when finite points exist. -/
theorem claimC7_evaluator :
    (∀ L : List LMPoint, (∀ p ∈ L, pointOk p) →
        evaluateAlignment L = evaluateAlignmentSpec L) ∧
    (∀ (L : List LMPoint) (p : LMPoint) (vx vy : JsNumber),
        p ∈ L → p.x = some vx → p.y = some vy →
        ((∀ q, vx ≠ .finite q) ∨ (∀ q, vy ≠ .finite q)) →
        evaluateAlignment L = ⟨false, false⟩) ∧
    evaluateAlignment [] = ⟨false, false⟩ :=
  ⟨evaluateAlignment_eq_spec_of_ok,
   fun L p vx vy hm hx hy hbad => evaluateAlignment_poisoned L p hm vx vy hx hy hbad,
   rfl⟩

theorem claimC7_evaluator_witness :
    evaluateAlignment closeFace = evaluateAlignmentSpec closeFace :=
  claimC7_evaluator.1 closeFace (by simp [closeFace, pt, pointOk, coordOk])

/-- Claim C8: stopping an active camera session clears every counter, the
capture latch, the retained landmarks and the animation start time, and
returns the phase to Guide; a subsequent (or any) successful start leaves
the machine in the fresh Guide state. -/
theorem claimC8_sessionReset :
    (∀ s : EngagementState, s.isCameraOn = true ∨ s.hasStream = true →
        stopCamera s = clearedState) ∧
    (∀ s : EngagementState, startCamera s = freshState) := by
  constructor
  · intro s h
    rcases h with h | h <;> simp [stopCamera, clearedState, h]
  · intro s
    rfl

theorem claimC8_sessionReset_witness :
    stopCamera freshState = clearedState :=
  claimC8_sessionReset.1 freshState (Or.inl rfl)

/-- Claim C9: every artifact produced by the capture pipeline has the
source video frame's pixel dimensions, and the painted content is mirrored
horizontally: the video point at normalized coordinates (u, v) lands at
device point ((1−u)·width, v·height). -/
theorem claimC9_captureGeometry :
    ∀ (cameraOn : Bool) (video : VideoFrame) (art : CaptureArtifact) (u v : ℚ),
      captureScreenshot cameraOn video = some art →
      (art.width = video.videoWidth ∧ art.height = video.videoHeight ∧
       art.place u v = ((1 - u) * (video.videoWidth : ℚ), v * (video.videoHeight : ℚ))) := by
  intro cameraOn video art u v h
  rw [captureScreenshot] at h
  by_cases hc : (!cameraOn || video.videoWidth == 0 || video.videoHeight == 0) = true
  · rw [if_pos hc] at h; cases h
  · rw [if_neg hc] at h
    obtain rfl : art = _ := (Option.some_injective _ h.symm)
    refine ⟨rfl, rfl, ?_⟩
    simp [mirrorTransform, drawImagePoint]
    ring

theorem claimC9_captureGeometry_witness :
    ((CaptureArtifact.mk 640 480 (fun u v =>
        mirrorTransform
          (drawImagePoint (-(((640 : Nat) : ℚ))) 0 ((640 : Nat) : ℚ) ((480 : Nat) : ℚ) u v))).width
      = (VideoFrame.mk 640 480).videoWidth ∧
     (CaptureArtifact.mk 640 480 (fun u v =>
        mirrorTransform
          (drawImagePoint (-(((640 : Nat) : ℚ))) 0 ((640 : Nat) : ℚ) ((480 : Nat) : ℚ) u v))).height
      = (VideoFrame.mk 640 480).videoHeight ∧
     (CaptureArtifact.mk 640 480 (fun u v =>
        mirrorTransform
          (drawImagePoint (-(((640 : Nat) : ℚ))) 0 ((640 : Nat) : ℚ) ((480 : Nat) : ℚ) u v))).place
        (1/4) (1/2)
      = ((1 - 1/4) * (((VideoFrame.mk 640 480).videoWidth : Nat) : ℚ),
         (1/2) * (((VideoFrame.mk 640 480).videoHeight : Nat) : ℚ))) :=
  claimC9_captureGeometry true (VideoFrame.mk 640 480) _ (1/4) (1/2) rfl

/-- Claim C10: an aligned verdict is always also a close verdict (the
alignment size thresholds dominate the near thresholds), and hence a
single aligned frame in Locked resets the disengage counter. -/
theorem claimC10_alignedImpliesClose :
    (∀ L : List LMPoint,
        (evaluateAlignment L).isAligned = true → (evaluateAlignment L).isClose = true) ∧
    (∀ (s : EngagementState) (now : ℚ) (f : Face) (rest : List Face),
        s.isCameraOn = true → s.hasAnimationStarted = true →
        (evaluateAlignment f).isAligned = true →
        (renderLoopStep s now (.detection (f :: rest))).1.disengageCount = 0) := by
  constructor
  · exact isAligned_imp_isClose
  · intro s now f rest hcam hlock halg
    have hclose := isAligned_imp_isClose f halg
    by_cases ha : s.animationStart.isNone <;>
      by_cases hcap : s.hasAutoCaptured <;>
        by_cases h60 : s.autoCaptureFrameCount + 1 ≥ 60 <;>
          simp [renderLoopStep, detectionBranch, hcam, hlock, hclose, ha, hcap, h60,
            AUTO_CAPTURE_FRAMES]

theorem claimC10_alignedImpliesClose_witness :
    (evaluateAlignment alignedFace).isClose = true :=
  claimC10_alignedImpliesClose.1 alignedFace (by rw [evaluateAlignment_alignedFace])
